import Mathlib

/-! Shallow embedding of the solana-substreams event decoders
    (the spl-token substream and the pumpfun substream, both in
    `src/*/src/lib.rs`) together with a verification of the
    specification's claims about them.

    Modelling conventions:
    * Rust `Result<T, anyhow::Error>` becomes `RResult T` below, with a
      third outcome `crash` for a Rust panic (`Option::unwrap` on `None`,
      out-of-bounds slice indexing).
    * External collaborators (the binary instruction decoders
      `TokenInstruction::unpack` / `PumpfunInstruction::unpack` /
      `PumpfunLog::unpack`, the system-program transfer parser, and the
      running balance ledger `update_balance` / `get_token_account`) are
    taken as parameters, bundled in the `Env` structure: the code under
      verification is a function of their outputs at the interface
      boundary described in the specification. -/

/-- Outcome of a Rust computation: a normal value, a recoverable error
    carried as a string (anyhow errors and `&'static str` errors), or an
    unrecoverable panic. -/
inductive RResult (α : Type) where
  | ok (a : α)
  | err (e : String)
  | crash
deriving DecidableEq

def RResult.bind {α β : Type} : RResult α → (α → RResult β) → RResult β
  | .ok a, f => f a
  | .err e, _ => .err e
  | .crash, _ => .crash

instance : Monad RResult where
  pure := RResult.ok
  bind := RResult.bind

def RResult.map {α β : Type} (f : α → β) : RResult α → RResult β
  | .ok a => .ok (f a)
  | .err e => .err e
  | .crash => .crash

/-- Rust `Option::unwrap`: panics on `None`. -/
def unwrapO {α : Type} : Option α → RResult α
  | some a => .ok a
  | none => .crash

/-- Rust slice indexing `xs[n]`: panics when out of bounds. -/
def idx {α : Type} (xs : List α) (n : Nat) : RResult α :=
  match xs.get? n with
  | some a => .ok a
  | none => .crash

/-- Lift the result of an external fallible call into `RResult`. -/
def exceptToR {α : Type} : Except String α → RResult α
  | .ok a => .ok a
  | .error e => .err e

/-- Point-in-time token-account snapshot returned by the ledger
    (`utils::spl_token::TokenAccount`, converted to the protobuf
    `TokenAccount` at `src/spl_token/src/lib.rs:497-507`). -/
structure TokenAccount where
  address : String
  owner : String
  mint : String
  pre_balance : Nat
  post_balance : Nat
deriving DecidableEq

/-- One log line attached to an instruction (`utils::log::Log`): a
    structured data log whose raw byte payload may fail to decode
    (modelled by `none`, matching `data_log.data().ok()`), or free text. -/
inductive Log where
  | dataLog (payload : Option (List Nat))
  | textLog (s : String)

/-- A structured instruction (`utils::instruction::StructuredInstruction`):
    program id, ordered account address list, raw opcode payload bytes,
    direct child instructions, and the log lines of its execution
    (`none` when upstream log capture reports truncation). -/
inductive Instruction where
  | mk (program_id : String) (accounts : List String) (data : List Nat)
       (inner_instructions : List Instruction) (logs : Option (List Log))

def Instruction.program_id : Instruction → String
  | .mk p _ _ _ _ => p

def Instruction.accounts : Instruction → List String
  | .mk _ a _ _ _ => a

def Instruction.data : Instruction → List Nat
  | .mk _ _ d _ _ => d

def Instruction.inner_instructions : Instruction → List Instruction
  | .mk _ _ _ c _ => c

def Instruction.logs : Instruction → Option (List Log)
  | .mk _ _ _ _ l => l

mutual
/-- Pre-order flattening of an instruction tree
    (`StructuredInstructions::flattened`), execution order. -/
def flattenInstr : Instruction → List Instruction
  | .mk p a d inner l => .mk p a d inner l :: flattenList inner
/-- Pre-order flattening of a forest of instructions, execution order. -/
def flattenList : List Instruction → List Instruction
  | [] => []
  | i :: rest => flattenInstr i ++ flattenList rest
end

/-- A confirmed transaction as seen by the parsers: signature, on-chain
    failure flag (`meta.err.is_some()`), and top-level instruction tree. -/
structure Transaction where
  signature : String
  failed : Bool
  instructions : List Instruction

/-- The per-transaction context (`utils::transaction::TransactionContext`)
    at its interface boundary: the signature and the ledger query. -/
structure TransactionContext where
  signature : String
  getTokenAccount : String → Option TokenAccount

def TOKEN_PROGRAM_ID : String := "TokenkegQfeZyiNwAJbNbGKPFXCWuBvf9Ss623VQ5DA"
def SYSTEM_PROGRAM_ID : String := "11111111111111111111111111111111"
def PUMPFUN_PROGRAM_ID : String := "6EF8rrecthR5Dkzon8Nwu78hRvfCKubJ14M5uBEwF6P"

/-- Authority kinds of the token-standard `SetAuthority` instruction. -/
inductive AuthorityType where
  | MintTokens
  | FreezeAccount
  | AccountOwner
  | CloseAccount
deriving DecidableEq

/-- Decoded token-standard instruction variants
    (`utils::spl_token::TokenInstruction`); the variant list is exactly
    the one exhaustively matched in `src/spl_token/src/lib.rs:46-144`. -/
inductive TokenInstruction where
  | InitializeMint (decimals : Nat) (mint_authority : String) (freeze_authority : Option String)
  | InitializeMint2 (decimals : Nat) (mint_authority : String) (freeze_authority : Option String)
  | InitializeAccount
  | InitializeAccount2 (owner : String)
  | InitializeAccount3 (owner : String)
  | InitializeMultisig (m : Nat)
  | InitializeMultisig2 (m : Nat)
  | Transfer (amount : Nat)
  | TransferChecked (amount : Nat) (decimals : Nat)
  | Approve (amount : Nat)
  | ApproveChecked (amount : Nat) (decimals : Nat)
  | Revoke
  | SetAuthority (authority_type : AuthorityType) (new_authority : Option String)
  | MintTo (amount : Nat)
  | MintToChecked (amount : Nat) (decimals : Nat)
  | Burn (amount : Nat)
  | BurnChecked (amount : Nat) (decimals : Nat)
  | CloseAccount
  | FreezeAccount
  | ThawAccount
  | InitializeImmutableOwner
  | SyncNative
  | AmountToUiAmount (amount : Nat)
  | GetAccountDataSize
  | UiAmountToAmount (ui_amount : Nat)
deriving DecidableEq

/-- Decoded set-params payload (`pumpfun::instruction::SetParamsInstruction`). -/
structure SetParamsInstruction where
  fee_recipient : String
  initial_virtual_token_reserves : Nat
  initial_virtual_sol_reserves : Nat
  initial_real_token_reserves : Nat
  token_total_supply : Nat
  fee_basis_points : Nat
deriving DecidableEq

/-- Decoded create payload (`pumpfun::instruction::CreateInstruction`). -/
structure CreateInstruction where
  name : String
  symbol : String
  uri : String
deriving DecidableEq

/-- Decoded buy payload (`pumpfun::instruction::BuyInstruction`); only the
    `amount` field is consumed by the synthesizer. -/
structure BuyInstruction where
  amount : Nat
deriving DecidableEq

/-- Decoded sell payload (`pumpfun::instruction::SellInstruction`). -/
structure SellInstruction where
  amount : Nat
deriving DecidableEq

/-- Modelled from the spec: the curve-program instruction enum
    (`pumpfun::instruction::PumpfunInstruction`, whose module is not part
    of the provided sources). Per the specification's data model it is
    "initialize, set-params, create, buy, sell, withdraw, plus unsupported
    variants"; the extra variants are collapsed into one `Unsupported`
    constructor, matched by the wildcard arm of `parse_instruction`
    (`src/pumpfun/src/lib.rs:99`). -/
inductive PumpfunInstruction where
  | Init
  | SetParams (p : SetParamsInstruction)
  | Create (c : CreateInstruction)
  | Buy (b : BuyInstruction)
  | Sell (s : SellInstruction)
  | Withdraw
  | Unsupported
deriving DecidableEq

/-- Decoded trade log record (`pumpfun::log::TradeLog`); the fields
    consumed by the synthesizer. -/
structure TradeLog where
  sol_amount : Nat
  virtual_sol_reserves : Nat
  virtual_token_reserves : Nat
  real_sol_reserves : Nat
  real_token_reserves : Nat
deriving DecidableEq

/-- Modelled from the spec: the curve-program log record enum
    (`pumpfun::log::PumpfunLog`): a closed discriminant-tagged set where
    only the "trade" variant carries economic fields. -/
inductive PumpfunLog where
  | Trade (t : TradeLog)
  | Other
deriving DecidableEq

/-- Result of the system-program transfer parser
    (`system_program_substream::parse_transfer_instruction`); only the
    `lamports` field is consumed here. -/
structure SystemTransferEvent where
  lamports : Nat
deriving DecidableEq

/-- External collaborators, passed at the interface boundary. -/
structure Env where
  tokUnpack : List Nat → Except String TokenInstruction
  pfUnpack : List Nat → Except String PumpfunInstruction
  logUnpack : List Nat → Except String PumpfunLog
  sysParseTransfer : Instruction → TransactionContext → Except String SystemTransferEvent
  updateBalance : TransactionContext → Instruction → TransactionContext

/-- Observable external calls made by an orchestrator while processing a
    transaction, in order: a ledger mutation (`update_balance`) or the
    decode-and-synthesize dispatch on one instruction. -/
inductive CallEvent where
  | updBal (i : Instruction)
  | decode (i : Instruction)

def CallEvent.isUpd : CallEvent → Bool
  | .updBal _ => true
  | .decode _ => false

namespace SplToken

/-- Output event `InitializeMintEvent` of the token-standard substream. -/
structure InitializeMintEvent where
  mint : String
  decimals : Nat
  mint_authority : String
  freeze_authority : Option String
deriving DecidableEq

/-- Output event `InitializeAccountEvent`. -/
structure InitializeAccountEvent where
  account : Option TokenAccount
deriving DecidableEq

/-- Output event `InitializeMultisigEvent`. -/
structure InitializeMultisigEvent where
  multisig : String
  signers : List String
  m : Nat
deriving DecidableEq

/-- Output event `TransferEvent`. -/
structure TransferEvent where
  source : Option TokenAccount
  destination : Option TokenAccount
  amount : Nat
  authority : String
deriving DecidableEq

/-- Output event `ApproveEvent`. -/
structure ApproveEvent where
  source : Option TokenAccount
  delegate : String
  amount : Nat
deriving DecidableEq

/-- Output event `RevokeEvent`. -/
structure RevokeEvent where
  source : Option TokenAccount
deriving DecidableEq

/-- Output event `SetAuthorityEvent`. -/
structure SetAuthorityEvent where
  mint : String
  authority : String
  authority_type : AuthorityType
  new_authority : Option String
deriving DecidableEq

/-- Output event `MintToEvent`. -/
structure MintToEvent where
  mint : String
  destination : Option TokenAccount
  mint_authority : String
  amount : Nat
deriving DecidableEq

/-- Output event `BurnEvent`. -/
structure BurnEvent where
  source : Option TokenAccount
  authority : String
  amount : Nat
deriving DecidableEq

/-- Output event `CloseAccountEvent`. -/
structure CloseAccountEvent where
  source : Option TokenAccount
  destination : String
deriving DecidableEq

/-- Output event `FreezeAccountEvent`. -/
structure FreezeAccountEvent where
  source : Option TokenAccount
  freeze_authority : String
deriving DecidableEq

/-- Output event `ThawAccountEvent`. -/
structure ThawAccountEvent where
  source : Option TokenAccount
  freeze_authority : String
deriving DecidableEq

/-- Output event `InitializeImmutableOwnerEvent`. -/
structure InitializeImmutableOwnerEvent where
  account : Option TokenAccount
deriving DecidableEq

/-- Output event `SyncNativeEvent`. -/
structure SyncNativeEvent where
  account : Option TokenAccount
deriving DecidableEq

/-- The token-standard tagged event union (`pb::spl_token::spl_token_event::Event`). -/
inductive Event where
  | InitializeMint (e : InitializeMintEvent)
  | InitializeAccount (e : InitializeAccountEvent)
  | InitializeMultisig (e : InitializeMultisigEvent)
  | Transfer (e : TransferEvent)
  | Approve (e : ApproveEvent)
  | Revoke (e : RevokeEvent)
  | SetAuthority (e : SetAuthorityEvent)
  | MintTo (e : MintToEvent)
  | Burn (e : BurnEvent)
  | CloseAccount (e : CloseAccountEvent)
  | FreezeAccount (e : FreezeAccountEvent)
  | ThawAccount (e : ThawAccountEvent)
  | InitializeImmutableOwner (e : InitializeImmutableOwnerEvent)
  | SyncNative (e : SyncNativeEvent)
deriving DecidableEq

/-- The per-instruction wrapper pushed to the transaction's event list
    (`pb::spl_token::SplTokenEvent`): its inner event is optional. -/
structure SplTokenEvent where
  event : Option Event
deriving DecidableEq

/-- Rust slice suffix `&xs[delta..]`: panics when `delta` exceeds the
    slice length. -/
def sliceFrom {α : Type} (xs : List α) (n : Nat) : RResult (List α) :=
  if n ≤ xs.length then .ok (xs.drop n) else .crash

def _parse_initialize_mint_instruction (i : Instruction) (decimals : Nat)
    (mint_authority : String) (freeze_authority : Option String) :
    RResult InitializeMintEvent := do
  let mint ← idx i.accounts 0
  pure { mint := mint, decimals := decimals, mint_authority := mint_authority,
         freeze_authority := freeze_authority }

def _parse_initialize_account_instruction (i : Instruction)
    (ctx : TransactionContext) (_owner : Option String) :
    RResult InitializeAccountEvent := do
  let address ← idx i.accounts 0
  let token_account ← unwrapO (ctx.getTokenAccount address)
  pure { account := some token_account }

def _parse_initialize_multisig_instruction (i : Instruction) (m : Nat)
    (rent_sysvar_account : Bool) : RResult InitializeMultisigEvent := do
  let multisig ← idx i.accounts 0
  let delta := if rent_sysvar_account then 2 else 1
  let signers ← sliceFrom i.accounts delta
  pure { multisig := multisig, signers := signers, m := m }

def _parse_transfer_instruction (i : Instruction) (ctx : TransactionContext)
    (amount : Nat) (expected_decimals : Option Nat) : RResult TransferEvent := do
  let delta : Nat := if expected_decimals.isNone then 0 else 1
  let a0 ← idx i.accounts 0
  let source ← unwrapO (ctx.getTokenAccount a0)
  let a1 ← idx i.accounts (1 + delta)
  let destination ← unwrapO (ctx.getTokenAccount a1)
  let authority ← idx i.accounts (2 + delta)
  pure { source := some source, destination := some destination,
         amount := amount, authority := authority }

def _parse_approve_instruction (i : Instruction) (ctx : TransactionContext)
    (amount : Nat) (expected_decimals : Option Nat) : RResult ApproveEvent := do
  let delta : Nat := if expected_decimals.isNone then 0 else 1
  let a0 ← idx i.accounts 0
  let source ← unwrapO (ctx.getTokenAccount a0)
  let delegate ← idx i.accounts (1 + delta)
  pure { source := some source, delegate := delegate, amount := amount }

def _parse_revoke_instruction (i : Instruction) (ctx : TransactionContext) :
    RResult RevokeEvent := do
  let a0 ← idx i.accounts 0
  let source ← unwrapO (ctx.getTokenAccount a0)
  pure { source := some source }

def _parse_set_authority_instruction (i : Instruction)
    (authority_type : AuthorityType) (new_authority : Option String) :
    RResult SetAuthorityEvent := do
  let mint ← idx i.accounts 0
  let authority ← idx i.accounts 1
  pure { mint := mint, authority := authority, authority_type := authority_type,
         new_authority := new_authority }

def _parse_mint_to_instruction (i : Instruction) (ctx : TransactionContext)
    (amount : Nat) : RResult MintToEvent := do
  let mint ← idx i.accounts 0
  let a1 ← idx i.accounts 1
  let destination ← unwrapO (ctx.getTokenAccount a1)
  let mint_authority ← idx i.accounts 2
  pure { mint := mint, destination := some destination,
         mint_authority := mint_authority, amount := amount }

def _parse_burn_instruction (i : Instruction) (ctx : TransactionContext)
    (amount : Nat) : RResult BurnEvent := do
  let a0 ← idx i.accounts 0
  let source ← unwrapO (ctx.getTokenAccount a0)
  let _mint ← idx i.accounts 1
  let authority ← idx i.accounts 2
  pure { source := some source, authority := authority, amount := amount }

def _parse_close_account_instruction (i : Instruction)
    (ctx : TransactionContext) : RResult CloseAccountEvent := do
  let a0 ← idx i.accounts 0
  let source ← unwrapO (ctx.getTokenAccount a0)
  let destination ← idx i.accounts 1
  pure { source := some source, destination := destination }

def _parse_freeze_account_instruction (i : Instruction)
    (ctx : TransactionContext) : RResult FreezeAccountEvent := do
  let a0 ← idx i.accounts 0
  let source ← unwrapO (ctx.getTokenAccount a0)
  let freeze_authority ← idx i.accounts 1
  pure { source := some source, freeze_authority := freeze_authority }

def _parse_thaw_account_instruction (i : Instruction)
    (ctx : TransactionContext) : RResult ThawAccountEvent := do
  let a0 ← idx i.accounts 0
  let source ← unwrapO (ctx.getTokenAccount a0)
  let freeze_authority ← idx i.accounts 1
  pure { source := some source, freeze_authority := freeze_authority }

def _parse_initialize_immutable_owner_instruction (i : Instruction)
    (ctx : TransactionContext) : RResult InitializeImmutableOwnerEvent := do
  let a0 ← idx i.accounts 0
  let account ← unwrapO (ctx.getTokenAccount a0)
  pure { account := some account }

def _parse_sync_native_instruction (i : Instruction)
    (ctx : TransactionContext) : RResult SyncNativeEvent := do
  let a0 ← idx i.accounts 0
  let account ← unwrapO (ctx.getTokenAccount a0)
  pure { account := some account }

def notTokenMsg : String := "Not a Token program instruction"
def unpackTokenCtxMsg : String := "Failed to unpack Token instruction"
def parseTokenCtxMsg : String := "Failed to parse Token instruction"

/-- The anyhow `.context(c)` combinator: wraps a recoverable error's
    message, leaves successes and panics alone. -/
def withCtxMsg {α : Type} (c : String) : RResult α → RResult α
  | .err e => .err (c ++ (": ") ++ e)
  | r => r

/-- `spl_token_substream::parse_instruction` (`src/spl_token/src/lib.rs:36-146`). -/
def parse_instruction (env : Env) (i : Instruction) (ctx : TransactionContext) :
    RResult (Option Event) :=
  if i.program_id ≠ TOKEN_PROGRAM_ID then .err notTokenMsg
  else
    match env.tokUnpack i.data with
    | .error e => .err (unpackTokenCtxMsg ++ (": ") ++ e)
    | .ok u =>
      withCtxMsg parseTokenCtxMsg (match u with
      | .InitializeMint d ma fa =>
          (_parse_initialize_mint_instruction i d ma fa).map (fun x => some (.InitializeMint x))
      | .InitializeMint2 d ma fa =>
          (_parse_initialize_mint_instruction i d ma fa).map (fun x => some (.InitializeMint x))
      | .InitializeAccount =>
          (_parse_initialize_account_instruction i ctx none).map (fun x => some (.InitializeAccount x))
      | .InitializeAccount2 owner =>
          (_parse_initialize_account_instruction i ctx (some owner)).map (fun x => some (.InitializeAccount x))
      | .InitializeAccount3 owner =>
          (_parse_initialize_account_instruction i ctx (some owner)).map (fun x => some (.InitializeAccount x))
      | .InitializeMultisig m =>
          (_parse_initialize_multisig_instruction i m true).map (fun x => some (.InitializeMultisig x))
      | .InitializeMultisig2 m =>
          (_parse_initialize_multisig_instruction i m false).map (fun x => some (.InitializeMultisig x))
      | .Transfer amount =>
          (_parse_transfer_instruction i ctx amount none).map (fun x => some (.Transfer x))
      | .TransferChecked amount decimals =>
          (_parse_transfer_instruction i ctx amount (some decimals)).map (fun x => some (.Transfer x))
      | .Approve amount =>
          (_parse_approve_instruction i ctx amount none).map (fun x => some (.Approve x))
      | .ApproveChecked amount decimals =>
          (_parse_approve_instruction i ctx amount (some decimals)).map (fun x => some (.Approve x))
      | .Revoke =>
          (_parse_revoke_instruction i ctx).map (fun x => some (.Revoke x))
      | .SetAuthority t na =>
          (_parse_set_authority_instruction i t na).map (fun x => some (.SetAuthority x))
      | .MintTo amount =>
          (_parse_mint_to_instruction i ctx amount).map (fun x => some (.MintTo x))
      | .MintToChecked amount _decimals =>
          (_parse_mint_to_instruction i ctx amount).map (fun x => some (.MintTo x))
      | .Burn amount =>
          (_parse_burn_instruction i ctx amount).map (fun x => some (.Burn x))
      | .BurnChecked amount _decimals =>
          (_parse_burn_instruction i ctx amount).map (fun x => some (.Burn x))
      | .CloseAccount =>
          (_parse_close_account_instruction i ctx).map (fun x => some (.CloseAccount x))
      | .FreezeAccount =>
          (_parse_freeze_account_instruction i ctx).map (fun x => some (.FreezeAccount x))
      | .ThawAccount =>
          (_parse_thaw_account_instruction i ctx).map (fun x => some (.ThawAccount x))
      | .InitializeImmutableOwner =>
          (_parse_initialize_immutable_owner_instruction i ctx).map (fun x => some (.InitializeImmutableOwner x))
      | .SyncNative =>
          (_parse_sync_native_instruction i ctx).map (fun x => some (.SyncNative x))
      | .AmountToUiAmount _ => .ok none
      | .GetAccountDataSize => .ok none
      | .UiAmountToAmount _ => .ok none)

def failedTransferMsg : String := "Failed to parse transfer instruction."

/-- `spl_token_substream::parse_transfer_instruction`
    (`src/spl_token/src/lib.rs:396-404`), the public wrapper used by the
    pumpfun substream to parse a correlated token-transfer child. -/
def parse_transfer_instruction (env : Env) (i : Instruction)
    (ctx : TransactionContext) : RResult TransferEvent :=
  match parse_instruction env i ctx with
  | .ok (some (.Transfer t)) => .ok t
  | .crash => .crash
  | _ => .err failedTransferMsg

/-- The per-instruction loop body of the token-standard orchestrator
    (`src/spl_token/src/lib.rs:25-31`), instrumented with the trace of
    external `update_balance` / decode calls it makes. -/
def spl_loop (env : Env) : TransactionContext → List Instruction →
    RResult (List SplTokenEvent) × List CallEvent
  | _, [] => (.ok [], [])
  | ctx, i :: rest =>
    let ctx' := env.updateBalance ctx i
    if i.program_id = TOKEN_PROGRAM_ID then
      match parse_instruction env i ctx' with
      | .ok ev =>
        let r := spl_loop env ctx' rest
        ((r.1).map (fun evs => ⟨ev⟩ :: evs), .updBal i :: .decode i :: r.2)
      | .err e => (.err e, [.updBal i, .decode i])
      | .crash => (.crash, [.updBal i, .decode i])
    else
      let r := spl_loop env ctx' rest
      (r.1, .updBal i :: r.2)

/-- `spl_token_substream::parse_transaction` (`src/spl_token/src/lib.rs:15-34`),
    instrumented with the trace of external calls. -/
def parse_transaction (env : Env) (ctx0 : TransactionContext)
    (tx : Transaction) : RResult (List SplTokenEvent) × List CallEvent :=
  if tx.failed then (.ok [], [])
  else spl_loop env ctx0 (flattenList tx.instructions)

end SplToken

namespace Pumpfun

/-- Output event `InitializeEvent` of the curve-program substream. -/
structure InitializeEvent where
  user : String
deriving DecidableEq

/-- Output event `SetParamsEvent`. -/
structure SetParamsEvent where
  user : String
  fee_recipient : String
  initial_virtual_token_reserves : Nat
  initial_virtual_sol_reserves : Nat
  initial_real_token_reserves : Nat
  token_total_supply : Nat
  fee_basis_points : Nat
deriving DecidableEq

/-- Output event `CreateEvent`. -/
structure CreateEvent where
  user : String
  name : String
  symbol : String
  uri : String
  mint : String
  bonding_curve : String
  associated_bonding_curve : String
  metadata : String
deriving DecidableEq

/-- Output event `SwapEvent`. -/
structure SwapEvent where
  user : String
  mint : String
  bonding_curve : String
  sol_amount : Option Nat
  token_amount : Nat
  direction : String
  virtual_sol_reserves : Option Nat
  virtual_token_reserves : Option Nat
  real_sol_reserves : Option Nat
  real_token_reserves : Option Nat
  user_token_pre_balance : Nat
deriving DecidableEq

/-- Output event `WithdrawEvent`. -/
structure WithdrawEvent where
  mint : String
deriving DecidableEq

/-- The curve-program tagged event union (`pb::pumpfun::pumpfun_event::Event`);
    the constructor for the initialize event is named `Init` here. -/
inductive Event where
  | Init (e : InitializeEvent)
  | SetParams (e : SetParamsEvent)
  | Create (e : CreateEvent)
  | Swap (e : SwapEvent)
  | Withdraw (e : WithdrawEvent)
deriving DecidableEq

/-- The per-instruction wrapper (`pb::pumpfun::PumpfunEvent`). -/
structure PumpfunEvent where
  event : Option Event
deriving DecidableEq

def _parse_initialize_instruction (i : Instruction) : RResult InitializeEvent := do
  let user ← idx i.accounts 0
  pure { user := user }

def _parse_set_params_instruction (i : Instruction)
    (set_params : SetParamsInstruction) : RResult SetParamsEvent := do
  let user ← idx i.accounts 0
  pure { user := user,
         fee_recipient := set_params.fee_recipient,
         initial_virtual_token_reserves := set_params.initial_virtual_token_reserves,
         initial_virtual_sol_reserves := set_params.initial_virtual_sol_reserves,
         initial_real_token_reserves := set_params.initial_real_token_reserves,
         token_total_supply := set_params.token_total_supply,
         fee_basis_points := set_params.fee_basis_points }

def _parse_create_instruction (i : Instruction) (create : CreateInstruction) :
    RResult CreateEvent := do
  let user ← idx i.accounts 7
  let mint ← idx i.accounts 0
  let bonding_curve ← idx i.accounts 2
  let associated_bonding_curve ← idx i.accounts 2
  let metadata ← idx i.accounts 6
  pure { user := user, name := create.name, symbol := create.symbol,
         uri := create.uri, mint := mint, bonding_curve := bonding_curve,
         associated_bonding_curve := associated_bonding_curve,
         metadata := metadata }

def logTruncMsg : String := "Failed to parse logs due to truncation"
def noDataLogMsg : String := "Couldn't find data log."

/-- `parse_pumpfun_log` (`src/pumpfun/src/lib.rs:265-271`): find the first
    data log whose raw payload decodes, then unpack it against the
    curve-program log schema. -/
def parse_pumpfun_log (env : Env) (i : Instruction) : RResult PumpfunLog :=
  match i.logs with
  | none => .err logTruncMsg
  | some ls =>
    match ls.findSome? (fun l => match l with
                                 | .dataLog p => p
                                 | .textLog _ => none) with
    | none => .err noDataLogMsg
    | some d => exceptToR (env.logUnpack d)

def noSysChildMsg : String := "No instruction with program_id == SYSTEM_PROGRAM_ID found"
def directionToken : String := "token"
def directionSol : String := "sol"

/-- `_parse_buy_instruction` (`src/pumpfun/src/lib.rs:164-211`). -/
def _parse_buy_instruction (env : Env) (i : Instruction)
    (ctx : TransactionContext) (buy : BuyInstruction) : RResult SwapEvent := do
  let mint ← idx i.accounts 2
  let bonding_curve ← idx i.accounts 3
  let user ← idx i.accounts 6
  let token_amount := buy.amount
  let system_transfer_instruction ←
    match i.inner_instructions.find? (fun x => x.program_id == SYSTEM_PROGRAM_ID) with
    | some x => RResult.ok x
    | none => RResult.err noSysChildMsg
  let system_transfer ← exceptToR (env.sysParseTransfer system_transfer_instruction ctx)
  let sol_amount := some system_transfer.lamports
  let token_transfer_instruction ←
    unwrapO (i.inner_instructions.find? (fun x => x.program_id == TOKEN_PROGRAM_ID))
  let token_transfer ← SplToken.parse_transfer_instruction env token_transfer_instruction ctx
  let dst ← unwrapO token_transfer.destination
  let user_token_pre_balance := dst.pre_balance
  let trade := match parse_pumpfun_log env i with
    | .ok (.Trade t) => some t
    | _ => none
  let virtual_sol_reserves := trade.map (fun x => x.virtual_sol_reserves)
  let virtual_token_reserves := trade.map (fun x => x.virtual_token_reserves)
  let real_sol_reserves := trade.map (fun x => x.real_sol_reserves)
  let real_token_reserves := trade.map (fun x => x.real_token_reserves)
  let direction := directionToken
  pure { user := user, mint := mint, bonding_curve := bonding_curve,
         sol_amount := sol_amount, token_amount := token_amount,
         direction := direction,
         virtual_sol_reserves := virtual_sol_reserves,
         virtual_token_reserves := virtual_token_reserves,
         real_sol_reserves := real_sol_reserves,
         real_token_reserves := real_token_reserves,
         user_token_pre_balance := user_token_pre_balance }

/-- `_parse_sell_instruction` (`src/pumpfun/src/lib.rs:213-252`). -/
def _parse_sell_instruction (env : Env) (i : Instruction)
    (ctx : TransactionContext) (sell : SellInstruction) : RResult SwapEvent := do
  let mint ← idx i.accounts 2
  let user ← idx i.accounts 6
  let bonding_curve ← idx i.accounts 3
  let token_amount := sell.amount
  let trade := match parse_pumpfun_log env i with
    | .ok (.Trade t) => some t
    | _ => none
  let sol_amount := trade.map (fun x => x.sol_amount)
  let virtual_sol_reserves := trade.map (fun x => x.virtual_sol_reserves)
  let virtual_token_reserves := trade.map (fun x => x.virtual_token_reserves)
  let real_sol_reserves := trade.map (fun x => x.real_sol_reserves)
  let real_token_reserves := trade.map (fun x => x.real_token_reserves)
  let direction := directionSol
  let token_transfer_instruction ←
    unwrapO (i.inner_instructions.find? (fun x => x.program_id == TOKEN_PROGRAM_ID))
  let token_transfer ← SplToken.parse_transfer_instruction env token_transfer_instruction ctx
  let src ← unwrapO token_transfer.source
  let user_token_pre_balance := src.pre_balance
  pure { user := user, mint := mint, bonding_curve := bonding_curve,
         token_amount := token_amount, sol_amount := sol_amount,
         direction := direction,
         virtual_sol_reserves := virtual_sol_reserves,
         virtual_token_reserves := virtual_token_reserves,
         real_sol_reserves := real_sol_reserves,
         real_token_reserves := real_token_reserves,
         user_token_pre_balance := user_token_pre_balance }

def _parse_withdraw_instruction (i : Instruction) : RResult WithdrawEvent := do
  let mint ← idx i.accounts 2
  pure { mint := mint }

def notPumpfunMsg : String := "Not a Pumpfun instruction."

/-- `pumpfun_substream::parse_instruction` (`src/pumpfun/src/lib.rs:72-101`). -/
def parse_instruction (env : Env) (i : Instruction) (ctx : TransactionContext) :
    RResult (Option Event) :=
  if i.program_id ≠ PUMPFUN_PROGRAM_ID then .err notPumpfunMsg
  else
    match env.pfUnpack i.data with
    | .error e => .err e
    | .ok u =>
      match u with
      | .Init => (_parse_initialize_instruction i).map (fun e => some (.Init e))
      | .SetParams p => (_parse_set_params_instruction i p).map (fun e => some (.SetParams e))
      | .Create c => (_parse_create_instruction i c).map (fun e => some (.Create e))
      | .Buy b => (_parse_buy_instruction env i ctx b).map (fun e => some (.Swap e))
      | .Sell s => (_parse_sell_instruction env i ctx s).map (fun e => some (.Swap e))
      | .Withdraw => (_parse_withdraw_instruction i).map (fun e => some (.Withdraw e))
      | .Unsupported => .ok none

/-- The error wrapping applied by the pumpfun orchestrator when an
    instruction fails: the transaction signature is attached
    (`src/pumpfun/src/lib.rs:66`). -/
def txErrWrap (sig e : String) : String :=
  "Transaction " ++ sig ++ (" error: ") ++ e

/-- The per-instruction loop of the curve-program orchestrator
    (`src/pumpfun/src/lib.rs:54-68`), instrumented with the trace of
    external `update_balance` / decode calls it makes (it makes no
    `update_balance` call). -/
def pumpfun_loop (env : Env) (ctx : TransactionContext) :
    List Instruction → RResult (List PumpfunEvent) × List CallEvent
  | [] => (.ok [], [])
  | i :: rest =>
    if i.program_id ≠ PUMPFUN_PROGRAM_ID then pumpfun_loop env ctx rest
    else
      match parse_instruction env i ctx with
      | .ok (some ev) =>
        let r := pumpfun_loop env ctx rest
        ((r.1).map (fun evs => ⟨some ev⟩ :: evs), .decode i :: r.2)
      | .ok none =>
        let r := pumpfun_loop env ctx rest
        (r.1, .decode i :: r.2)
      | .err e => (.err (txErrWrap ctx.signature e), [.decode i])
      | .crash => (.crash, [.decode i])

/-- `pumpfun_substream::parse_transaction` (`src/pumpfun/src/lib.rs:44-70`),
    instrumented with the trace of external calls. -/
def parse_transaction (env : Env) (ctx0 : TransactionContext)
    (tx : Transaction) : RResult (List PumpfunEvent) × List CallEvent :=
  if tx.failed then (.ok [], [])
  else pumpfun_loop env ctx0 (flattenList tx.instructions)

end Pumpfun

namespace RResult

@[simp] theorem ok_bind {α β : Type} (a : α) (f : α → RResult β) :
    (RResult.ok a >>= f) = f a := rfl

@[simp] theorem err_bind {α β : Type} (e : String) (f : α → RResult β) :
    ((RResult.err e : RResult α) >>= f) = .err e := rfl

@[simp] theorem crash_bind {α β : Type} (f : α → RResult β) :
    ((RResult.crash : RResult α) >>= f) = .crash := rfl

@[simp] theorem pure_eq_ok {α : Type} (a : α) : (pure a : RResult α) = .ok a := rfl

@[simp] theorem map_ok {α β : Type} (f : α → β) (a : α) :
    RResult.map f (.ok a) = .ok (f a) := rfl

@[simp] theorem map_err {α β : Type} (f : α → β) (e : String) :
    RResult.map f (.err e) = .err e := rfl

@[simp] theorem map_crash {α β : Type} (f : α → β) :
    RResult.map f (.crash : RResult α) = .crash := rfl

end RResult

@[simp] theorem unwrapO_some {α : Type} (a : α) : unwrapO (some a) = .ok a := rfl

@[simp] theorem unwrapO_none {α : Type} : unwrapO (none : Option α) = .crash := rfl

@[simp] theorem exceptToR_ok {α : Type} (a : α) :
    exceptToR (Except.ok a) = .ok a := rfl

@[simp] theorem exceptToR_error {α : Type} (e : String) :
    exceptToR (Except.error e : Except String α) = .err e := rfl

/-- In-bounds Rust slice indexing agrees with `List.getD`. -/
theorem idx_eq_ok {α : Type} (xs : List α) (n : Nat) (d : α)
    (h : n < xs.length) : idx xs n = .ok (xs.getD n d) := by
  simp [idx, List.get?_eq_getElem?, List.getElem?_eq_getElem h,
        List.getD_eq_getElem?_getD]

/-- The curve-program loop ignores instructions of other programs. -/
theorem pumpfun_loop_skip (env : Env) (ctx : TransactionContext)
    (l1 l2 : List Instruction)
    (h : ∀ j ∈ l1, j.program_id ≠ PUMPFUN_PROGRAM_ID) :
    Pumpfun.pumpfun_loop env ctx (l1 ++ l2) = Pumpfun.pumpfun_loop env ctx l2 := by
  induction l1 with
  | nil => simp
  | cons j l1 ih =>
    rw [List.cons_append, Pumpfun.pumpfun_loop,
        if_pos (h j (List.mem_cons_self j l1))]
    exact ih (fun k hk => h k (List.mem_cons_of_mem j hk))

/-- Claim C9: a transaction whose on-chain failure flag is set yields an
    empty event list from both programs' transaction parsers, with no
    decode and no ledger-update call made (empty call trace). -/
theorem c9_failed_transaction_empty (env : Env) (ctx : TransactionContext)
    (tx : Transaction) (h : tx.failed = true) :
    SplToken.parse_transaction env ctx tx = (.ok [], []) ∧
    Pumpfun.parse_transaction env ctx tx = (.ok [], []) := by
  constructor <;>
    simp [SplToken.parse_transaction, Pumpfun.parse_transaction, h]

/-- Claim C3: a well-formed create instruction of the curve program
    (at least 8 accounts) produces a `CreateEvent` with user = account 7,
    mint = account 0, bonding_curve = account 2, associated_bonding_curve
    = account 2, metadata = account 6, and name/symbol/uri verbatim from
    the decoded payload. -/
theorem c3_create_event_fields (env : Env) (ctx : TransactionContext)
    (i : Instruction) (c : CreateInstruction)
    (hpid : i.program_id = PUMPFUN_PROGRAM_ID)
    (hlen : 8 ≤ i.accounts.length)
    (hdec : env.pfUnpack i.data = .ok (.Create c)) :
    Pumpfun.parse_instruction env i ctx =
      .ok (some (.Create { user := i.accounts.getD 7 "",
                           name := c.name, symbol := c.symbol, uri := c.uri,
                           mint := i.accounts.getD 0 "",
                           bonding_curve := i.accounts.getD 2 "",
                           associated_bonding_curve := i.accounts.getD 2 "",
                           metadata := i.accounts.getD 6 "" })) := by
  rw [Pumpfun.parse_instruction, if_neg (by simp [hpid]), hdec]
  simp [Pumpfun._parse_create_instruction,
        idx_eq_ok i.accounts 7 "" (by omega), idx_eq_ok i.accounts 0 "" (by omega),
        idx_eq_ok i.accounts 2 "" (by omega), idx_eq_ok i.accounts 6 "" (by omega)]

/-- The optional trade record extracted by the buy/sell synthesizers:
    present exactly when the log extractor returns a trade record. -/
def tradeOf (env : Env) (i : Instruction) : Option TradeLog :=
  match Pumpfun.parse_pumpfun_log env i with
  | .ok (.Trade t) => some t
  | _ => none

theorem tradeOf_spec (env : Env) (i : Instruction) (t : TradeLog) :
    tradeOf env i = some t ↔ Pumpfun.parse_pumpfun_log env i = .ok (.Trade t) := by
  unfold tradeOf
  cases hl : Pumpfun.parse_pumpfun_log env i with
  | ok v => cases v with
    | Trade u => simp
    | Other => simp
  | err e => simp
  | crash => simp

/-- Full characterization of the buy synthesizer on an instruction whose
    mandatory correlations succeed; the trade-log-derived fields are the
    image of the (possibly absent) trade record. -/
theorem buy_result_eq (env : Env) (ctx : TransactionContext) (i : Instruction)
    (b : BuyInstruction) (si ti : Instruction) (st : SystemTransferEvent)
    (tr : SplToken.TransferEvent) (dst : TokenAccount)
    (tradeOpt : Option TradeLog)
    (hlen : 7 ≤ i.accounts.length)
    (hsys : i.inner_instructions.find?
      (fun x => x.program_id == SYSTEM_PROGRAM_ID) = some si)
    (hst : env.sysParseTransfer si ctx = .ok st)
    (htok : i.inner_instructions.find?
      (fun x => x.program_id == TOKEN_PROGRAM_ID) = some ti)
    (htr : SplToken.parse_transfer_instruction env ti ctx = .ok tr)
    (hdst : tr.destination = some dst)
    (htrade : ∀ t, tradeOpt = some t ↔
      Pumpfun.parse_pumpfun_log env i = .ok (.Trade t)) :
    Pumpfun._parse_buy_instruction env i ctx b =
      .ok { user := i.accounts.getD 6 "", mint := i.accounts.getD 2 "",
            bonding_curve := i.accounts.getD 3 "",
            sol_amount := some st.lamports, token_amount := b.amount,
            direction := Pumpfun.directionToken,
            virtual_sol_reserves := tradeOpt.map (fun x => x.virtual_sol_reserves),
            virtual_token_reserves := tradeOpt.map (fun x => x.virtual_token_reserves),
            real_sol_reserves := tradeOpt.map (fun x => x.real_sol_reserves),
            real_token_reserves := tradeOpt.map (fun x => x.real_token_reserves),
            user_token_pre_balance := dst.pre_balance } := by
  have hnone : (∀ t, Pumpfun.parse_pumpfun_log env i ≠ .ok (.Trade t)) →
      tradeOpt = none := by
    intro hne
    cases ho : tradeOpt with
    | none => rfl
    | some t => exact absurd ((htrade t).mp ho) (hne t)
  cases hl : Pumpfun.parse_pumpfun_log env i with
  | ok v =>
    cases v with
    | Trade t =>
      obtain rfl : tradeOpt = some t := (htrade t).mpr hl
      simp [Pumpfun._parse_buy_instruction, idx_eq_ok i.accounts 2 "" (by omega),
            idx_eq_ok i.accounts 3 "" (by omega), idx_eq_ok i.accounts 6 "" (by omega),
            hsys, hst, htok, htr, hdst, hl]
    | Other =>
      obtain rfl : tradeOpt = none := hnone (fun t h => by rw [hl] at h; simp at h)
      simp [Pumpfun._parse_buy_instruction, idx_eq_ok i.accounts 2 "" (by omega),
            idx_eq_ok i.accounts 3 "" (by omega), idx_eq_ok i.accounts 6 "" (by omega),
            hsys, hst, htok, htr, hdst, hl]
  | err e =>
    obtain rfl : tradeOpt = none := hnone (fun t h => by rw [hl] at h; simp at h)
    simp [Pumpfun._parse_buy_instruction, idx_eq_ok i.accounts 2 "" (by omega),
          idx_eq_ok i.accounts 3 "" (by omega), idx_eq_ok i.accounts 6 "" (by omega),
          hsys, hst, htok, htr, hdst, hl]
  | crash =>
    obtain rfl : tradeOpt = none := hnone (fun t h => by rw [hl] at h; simp at h)
    simp [Pumpfun._parse_buy_instruction, idx_eq_ok i.accounts 2 "" (by omega),
          idx_eq_ok i.accounts 3 "" (by omega), idx_eq_ok i.accounts 6 "" (by omega),
          hsys, hst, htok, htr, hdst, hl]

/-- Full characterization of the sell synthesizer on an instruction whose
    mandatory token-transfer correlation succeeds. -/
theorem sell_result_eq (env : Env) (ctx : TransactionContext) (i : Instruction)
    (s : SellInstruction) (ti : Instruction)
    (tr : SplToken.TransferEvent) (src : TokenAccount)
    (tradeOpt : Option TradeLog)
    (hlen : 7 ≤ i.accounts.length)
    (htok : i.inner_instructions.find?
      (fun x => x.program_id == TOKEN_PROGRAM_ID) = some ti)
    (htr : SplToken.parse_transfer_instruction env ti ctx = .ok tr)
    (hsrc : tr.source = some src)
    (htrade : ∀ t, tradeOpt = some t ↔
      Pumpfun.parse_pumpfun_log env i = .ok (.Trade t)) :
    Pumpfun._parse_sell_instruction env i ctx s =
      .ok { user := i.accounts.getD 6 "", mint := i.accounts.getD 2 "",
            bonding_curve := i.accounts.getD 3 "",
            sol_amount := tradeOpt.map (fun x => x.sol_amount),
            token_amount := s.amount,
            direction := Pumpfun.directionSol,
            virtual_sol_reserves := tradeOpt.map (fun x => x.virtual_sol_reserves),
            virtual_token_reserves := tradeOpt.map (fun x => x.virtual_token_reserves),
            real_sol_reserves := tradeOpt.map (fun x => x.real_sol_reserves),
            real_token_reserves := tradeOpt.map (fun x => x.real_token_reserves),
            user_token_pre_balance := src.pre_balance } := by
  have hnone : (∀ t, Pumpfun.parse_pumpfun_log env i ≠ .ok (.Trade t)) →
      tradeOpt = none := by
    intro hne
    cases ho : tradeOpt with
    | none => rfl
    | some t => exact absurd ((htrade t).mp ho) (hne t)
  cases hl : Pumpfun.parse_pumpfun_log env i with
  | ok v =>
    cases v with
    | Trade t =>
      obtain rfl : tradeOpt = some t := (htrade t).mpr hl
      simp [Pumpfun._parse_sell_instruction, idx_eq_ok i.accounts 2 "" (by omega),
            idx_eq_ok i.accounts 3 "" (by omega), idx_eq_ok i.accounts 6 "" (by omega),
            htok, htr, hsrc, hl]
    | Other =>
      obtain rfl : tradeOpt = none := hnone (fun t h => by rw [hl] at h; simp at h)
      simp [Pumpfun._parse_sell_instruction, idx_eq_ok i.accounts 2 "" (by omega),
            idx_eq_ok i.accounts 3 "" (by omega), idx_eq_ok i.accounts 6 "" (by omega),
            htok, htr, hsrc, hl]
  | err e =>
    obtain rfl : tradeOpt = none := hnone (fun t h => by rw [hl] at h; simp at h)
    simp [Pumpfun._parse_sell_instruction, idx_eq_ok i.accounts 2 "" (by omega),
          idx_eq_ok i.accounts 3 "" (by omega), idx_eq_ok i.accounts 6 "" (by omega),
          htok, htr, hsrc, hl]
  | crash =>
    obtain rfl : tradeOpt = none := hnone (fun t h => by rw [hl] at h; simp at h)
    simp [Pumpfun._parse_sell_instruction, idx_eq_ok i.accounts 2 "" (by omega),
          idx_eq_ok i.accounts 3 "" (by omega), idx_eq_ok i.accounts 6 "" (by omega),
          htok, htr, hsrc, hl]

/-- Claim C1: a buy instruction of the curve program (with the schema's
    account positions present) whose direct children contain no
    instruction owned by the native-currency (system) program makes
    synthesis fail with the correlation error, and the enclosing
    transaction's processing propagates that error with the transaction
    signature attached; in particular no (partially-populated) `SwapEvent`
    is produced. -/
theorem c1_buy_missing_system_child (env : Env) (ctx : TransactionContext)
    (i : Instruction) (b : BuyInstruction)
    (hpid : i.program_id = PUMPFUN_PROGRAM_ID)
    (hlen : 7 ≤ i.accounts.length)
    (hdec : env.pfUnpack i.data = .ok (.Buy b))
    (hnosys : ∀ c ∈ i.inner_instructions, c.program_id ≠ SYSTEM_PROGRAM_ID) :
    Pumpfun.parse_instruction env i ctx = .err Pumpfun.noSysChildMsg ∧
    (∀ (tx : Transaction) (l1 l2 : List Instruction), tx.failed = false →
      flattenList tx.instructions = l1 ++ i :: l2 →
      (∀ j ∈ l1, j.program_id ≠ PUMPFUN_PROGRAM_ID) →
      (Pumpfun.parse_transaction env ctx tx).1 =
        .err (Pumpfun.txErrWrap ctx.signature Pumpfun.noSysChildMsg)) := by
  have hfind : i.inner_instructions.find?
      (fun x => x.program_id == SYSTEM_PROGRAM_ID) = none := by
    rw [List.find?_eq_none]
    intro x hx
    simp [hnosys x hx]
  have hinstr : Pumpfun.parse_instruction env i ctx = .err Pumpfun.noSysChildMsg := by
    rw [Pumpfun.parse_instruction, if_neg (by simp [hpid]), hdec]
    simp [Pumpfun._parse_buy_instruction, idx_eq_ok i.accounts 2 "" (by omega),
          idx_eq_ok i.accounts 3 "" (by omega), idx_eq_ok i.accounts 6 "" (by omega),
          hfind]
  refine ⟨hinstr, ?_⟩
  intro tx l1 l2 hfail hflat hskip
  rw [Pumpfun.parse_transaction, if_neg (by simp [hfail]), hflat,
      pumpfun_loop_skip env ctx l1 (i :: l2) hskip,
      Pumpfun.pumpfun_loop, if_neg (by simp [hpid]), hinstr]

def taSrc : TokenAccount :=
  { address := "tsrc", owner := "ownS", mint := "mintA",
    pre_balance := 11, post_balance := 4 }

def taDst : TokenAccount :=
  { address := "tdst", owner := "ownD", mint := "mintA",
    pre_balance := 23, post_balance := 30 }

/-- Concrete transaction context used by the witness instantiations. -/
def ctxW : TransactionContext :=
  { signature := "SIGW",
    getTokenAccount := fun a =>
      if a = "tsrc" then some taSrc
      else if a = "tdst" then some taDst
      else none }

def cpayW : CreateInstruction := { name := "nm", symbol := "sy", uri := "ur" }

def tradeW : TradeLog :=
  { sol_amount := 5, virtual_sol_reserves := 6, virtual_token_reserves := 7,
    real_sol_reserves := 8, real_token_reserves := 9 }

/-- Concrete environment used by the witness instantiations. -/
def envW : Env :=
  { tokUnpack := fun d =>
      if d = [3] then .ok (.Transfer 5)
      else if d = [12] then .ok (.TransferChecked 9 6)
      else if d = [21] then .ok .GetAccountDataSize
      else .error ("unknown discriminant"),
    pfUnpack := fun d =>
      if d = [102] then .ok (.Buy { amount := 42 })
      else if d = [103] then .ok (.Sell { amount := 17 })
      else if d = [24] then .ok (.Create cpayW)
      else if d = [4] then .ok .Withdraw
      else if d = [9] then .ok .Unsupported
      else .error ("unknown discriminant"),
    logUnpack := fun d =>
      if d = [1] then .ok (.Trade tradeW)
      else .error ("bad log"),
    sysParseTransfer := fun _ _ => .ok { lamports := 1000 },
    updateBalance := fun c _ => c }

def accs7 : List String := ["pA", "pB", "mintP", "curveP", "pE", "pF", "userP"]

def c1iW : Instruction := .mk PUMPFUN_PROGRAM_ID accs7 [102] [] none

def c1txW : Transaction :=
  { signature := "SIGW", failed := false, instructions := [c1iW] }

/-- Witness for C1: a concrete buy instruction with no system-program
    child yields the correlation error, and its transaction propagates it
    with the signature attached. -/
theorem c1_witness :
    c1iW.program_id = PUMPFUN_PROGRAM_ID ∧
    7 ≤ c1iW.accounts.length ∧
    envW.pfUnpack c1iW.data = .ok (.Buy { amount := 42 }) ∧
    (∀ c ∈ c1iW.inner_instructions, c.program_id ≠ SYSTEM_PROGRAM_ID) ∧
    Pumpfun.parse_instruction envW c1iW ctxW = .err Pumpfun.noSysChildMsg ∧
    (Pumpfun.parse_transaction envW ctxW c1txW).1 =
      .err (Pumpfun.txErrWrap ctxW.signature Pumpfun.noSysChildMsg) := by
  have hns : ∀ c ∈ c1iW.inner_instructions, c.program_id ≠ SYSTEM_PROGRAM_ID := by
    simp [c1iW, Instruction.inner_instructions]
  have h := c1_buy_missing_system_child envW ctxW c1iW { amount := 42 }
    rfl (by simp [c1iW, accs7, Instruction.accounts]) rfl hns
  exact ⟨rfl, by simp [c1iW, accs7, Instruction.accounts], rfl, hns, h.1,
    h.2 c1txW [] [] rfl rfl (by simp)⟩

def c3iW : Instruction :=
  .mk PUMPFUN_PROGRAM_ID
    ["mintP", "pB", "curveP", "pD", "pE", "pF", "metaP", "userP"] [24] [] none

/-- Witness for C3 at a concrete create instruction. -/
theorem c3_witness :
    c3iW.program_id = PUMPFUN_PROGRAM_ID ∧
    8 ≤ c3iW.accounts.length ∧
    envW.pfUnpack c3iW.data = .ok (.Create cpayW) ∧
    Pumpfun.parse_instruction envW c3iW ctxW =
      .ok (some (.Create { user := c3iW.accounts.getD 7 "",
                           name := cpayW.name, symbol := cpayW.symbol,
                           uri := cpayW.uri,
                           mint := c3iW.accounts.getD 0 "",
                           bonding_curve := c3iW.accounts.getD 2 "",
                           associated_bonding_curve := c3iW.accounts.getD 2 "",
                           metadata := c3iW.accounts.getD 6 "" })) := by
  refine ⟨rfl, by simp [c3iW, Instruction.accounts], rfl, ?_⟩
  exact c3_create_event_fields envW ctxW c3iW cpayW rfl
    (by simp [c3iW, Instruction.accounts]) rfl

def c9txW : Transaction :=
  { signature := "SIGF", failed := true, instructions := [c1iW] }

/-- Witness for C9 at a concrete failed transaction. -/
theorem c9_witness :
    c9txW.failed = true ∧
    SplToken.parse_transaction envW ctxW c9txW = (.ok [], []) ∧
    Pumpfun.parse_transaction envW ctxW c9txW = (.ok [], []) := by
  have h := c9_failed_transaction_empty envW ctxW c9txW rfl
  exact ⟨rfl, h.1, h.2⟩

theorem SplToken.withCtxMsg_ok {α : Type} (c : String) (a : α) :
    SplToken.withCtxMsg c (.ok a) = .ok a := rfl

theorem SplToken.withCtxMsg_crash {α : Type} (c : String) :
    SplToken.withCtxMsg c (.crash : RResult α) = .crash := rfl

theorem SplToken.withCtxMsg_err {α : Type} (c e : String) :
    (SplToken.withCtxMsg c (.err e) : RResult α) = .err (c ++ (": ") ++ e) := rfl

/-- Claim C6: a well-formed token-standard transfer instruction (plain or
    checked, with `d` the checked offset) produces a `TransferEvent` with
    source = ledger snapshot of account 0, destination = ledger snapshot
    of account `1+d`, authority = account `2+d`, and the decoded payload
    amount. -/
theorem c6_transfer_event_fields (env : Env) (ctx : TransactionContext)
    (i : Instruction) (hpid : i.program_id = TOKEN_PROGRAM_ID) :
    (∀ amount src dst, env.tokUnpack i.data = .ok (.Transfer amount) →
      3 ≤ i.accounts.length →
      ctx.getTokenAccount (i.accounts.getD 0 "") = some src →
      ctx.getTokenAccount (i.accounts.getD 1 "") = some dst →
      SplToken.parse_instruction env i ctx =
        .ok (some (.Transfer { source := some src, destination := some dst,
                               amount := amount,
                               authority := i.accounts.getD 2 "" }))) ∧
    (∀ amount decimals src dst,
      env.tokUnpack i.data = .ok (.TransferChecked amount decimals) →
      4 ≤ i.accounts.length →
      ctx.getTokenAccount (i.accounts.getD 0 "") = some src →
      ctx.getTokenAccount (i.accounts.getD 2 "") = some dst →
      SplToken.parse_instruction env i ctx =
        .ok (some (.Transfer { source := some src, destination := some dst,
                               amount := amount,
                               authority := i.accounts.getD 3 "" }))) := by
  constructor
  · intro amount src dst hdec hlen hsrc hdst
    rw [SplToken.parse_instruction, if_neg (by simp [hpid]), hdec]
    simp only [List.getD_eq_getElem?_getD] at hsrc hdst
    simp [SplToken._parse_transfer_instruction,
          idx_eq_ok i.accounts 0 "" (by omega),
          idx_eq_ok i.accounts 1 "" (by omega),
          idx_eq_ok i.accounts 2 "" (by omega), hsrc, hdst,
          SplToken.withCtxMsg_ok]
  · intro amount decimals src dst hdec hlen hsrc hdst
    rw [SplToken.parse_instruction, if_neg (by simp [hpid]), hdec]
    simp only [List.getD_eq_getElem?_getD] at hsrc hdst
    simp [SplToken._parse_transfer_instruction,
          idx_eq_ok i.accounts 0 "" (by omega),
          idx_eq_ok i.accounts 2 "" (by omega),
          idx_eq_ok i.accounts 3 "" (by omega), hsrc, hdst,
          SplToken.withCtxMsg_ok]

def c6iW : Instruction :=
  .mk TOKEN_PROGRAM_ID ["tsrc", "tdst", "authW"] [3] [] none

def c6ciW : Instruction :=
  .mk TOKEN_PROGRAM_ID ["tsrc", "xmint", "tdst", "authX"] [12] [] none

/-- Witness for C6 at a concrete plain transfer and a concrete checked
    transfer. -/
theorem c6_witness :
    c6iW.program_id = TOKEN_PROGRAM_ID ∧
    envW.tokUnpack c6iW.data = .ok (.Transfer 5) ∧
    ctxW.getTokenAccount (c6iW.accounts.getD 0 "") = some taSrc ∧
    ctxW.getTokenAccount (c6iW.accounts.getD 1 "") = some taDst ∧
    SplToken.parse_instruction envW c6iW ctxW =
      .ok (some (.Transfer { source := some taSrc, destination := some taDst,
                             amount := 5,
                             authority := c6iW.accounts.getD 2 "" })) ∧
    SplToken.parse_instruction envW c6ciW ctxW =
      .ok (some (.Transfer { source := some taSrc, destination := some taDst,
                             amount := 9,
                             authority := c6ciW.accounts.getD 3 "" })) := by
  refine ⟨rfl, rfl, rfl, rfl, ?_, ?_⟩
  · exact (c6_transfer_event_fields envW ctxW c6iW rfl).1 5 taSrc taDst rfl
      (by simp [c6iW, Instruction.accounts]) rfl rfl
  · exact (c6_transfer_event_fields envW ctxW c6ciW rfl).2 9 6 taSrc taDst rfl
      (by simp [c6ciW, Instruction.accounts]) rfl rfl

def sysChildW : Instruction := .mk SYSTEM_PROGRAM_ID [] [] [] none

def tokChildW : Instruction :=
  .mk TOKEN_PROGRAM_ID ["tsrc", "tdst", "authW"] [3] [] none

def c2selliW : Instruction := .mk PUMPFUN_PROGRAM_ID accs7 [103] [] none

def c2buyiW : Instruction :=
  .mk PUMPFUN_PROGRAM_ID accs7 [102] [sysChildW] none

def c2txW : Transaction :=
  { signature := "SIGW", failed := false, instructions := [c2selliW] }

/-- Claim C2 (code evaluation at the failing inputs): a sell instruction
    of the curve program with no token-program child, and a buy
    instruction with a system child but no token-program child, make
    synthesis panic (`Option::unwrap` on the failed child lookup at
    `src/pumpfun/src/lib.rs:235` and `:183`) instead of returning a
    propagated error; the enclosing transaction's processing panics too. -/
theorem c2_missing_token_child_panics :
    Pumpfun.parse_instruction envW c2selliW ctxW = .crash ∧
    Pumpfun.parse_instruction envW c2buyiW ctxW = .crash ∧
    (Pumpfun.parse_transaction envW ctxW c2txW).1 = .crash := by
  refine ⟨rfl, rfl, rfl⟩

def c8iW : Instruction :=
  .mk TOKEN_PROGRAM_ID ["unkA", "unkB", "unkC"] [3] [] none

def c8txW : Transaction :=
  { signature := "SIGW", failed := false, instructions := [c8iW] }

/-- Claim C8 (code evaluation at the failing input): a token-standard
    transfer whose source address is not a tracked token account makes
    synthesis panic (`Option::unwrap` on the ledger lookup at
    `src/spl_token/src/lib.rs:207`) instead of failing with an error
    carrying the transaction signature; the transaction's processing
    panics too. -/
theorem c8_ledger_miss_panics :
    ctxW.getTokenAccount (c8iW.accounts.getD 0 "") = none ∧
    SplToken.parse_instruction envW c8iW ctxW = .crash ∧
    (SplToken.parse_transaction envW ctxW c8txW).1 = .crash := by
  refine ⟨rfl, rfl, rfl⟩

/-- Claim C5: for a buy or sell instruction of the curve program whose
    mandatory correlations succeed, the four reserve fields equal the
    trade record's values exactly when the log extractor yields a trade
    record (`tradeOpt = some t`), and are unset when the data log is
    absent, malformed or truncated (`tradeOpt = none`), while the
    transfer-derived fields (token_amount, user_token_pre_balance, and
    for buy sol_amount) are populated either way and no error is raised
    on account of the log. -/
theorem c5_reserve_fields (env : Env) (ctx : TransactionContext)
    (i : Instruction) (tradeOpt : Option TradeLog)
    (hpid : i.program_id = PUMPFUN_PROGRAM_ID)
    (hlen : 7 ≤ i.accounts.length)
    (htrade : ∀ t, tradeOpt = some t ↔
      Pumpfun.parse_pumpfun_log env i = .ok (.Trade t)) :
    (∀ b si st ti tr dst,
      env.pfUnpack i.data = .ok (.Buy b) →
      i.inner_instructions.find?
        (fun x => x.program_id == SYSTEM_PROGRAM_ID) = some si →
      env.sysParseTransfer si ctx = .ok st →
      i.inner_instructions.find?
        (fun x => x.program_id == TOKEN_PROGRAM_ID) = some ti →
      SplToken.parse_transfer_instruction env ti ctx = .ok tr →
      tr.destination = some dst →
      Pumpfun.parse_instruction env i ctx =
        .ok (some (.Swap
          { user := i.accounts.getD 6 "", mint := i.accounts.getD 2 "",
            bonding_curve := i.accounts.getD 3 "",
            sol_amount := some st.lamports, token_amount := b.amount,
            direction := Pumpfun.directionToken,
            virtual_sol_reserves := tradeOpt.map (fun x => x.virtual_sol_reserves),
            virtual_token_reserves := tradeOpt.map (fun x => x.virtual_token_reserves),
            real_sol_reserves := tradeOpt.map (fun x => x.real_sol_reserves),
            real_token_reserves := tradeOpt.map (fun x => x.real_token_reserves),
            user_token_pre_balance := dst.pre_balance }))) ∧
    (∀ s ti tr src,
      env.pfUnpack i.data = .ok (.Sell s) →
      i.inner_instructions.find?
        (fun x => x.program_id == TOKEN_PROGRAM_ID) = some ti →
      SplToken.parse_transfer_instruction env ti ctx = .ok tr →
      tr.source = some src →
      Pumpfun.parse_instruction env i ctx =
        .ok (some (.Swap
          { user := i.accounts.getD 6 "", mint := i.accounts.getD 2 "",
            bonding_curve := i.accounts.getD 3 "",
            sol_amount := tradeOpt.map (fun x => x.sol_amount),
            token_amount := s.amount,
            direction := Pumpfun.directionSol,
            virtual_sol_reserves := tradeOpt.map (fun x => x.virtual_sol_reserves),
            virtual_token_reserves := tradeOpt.map (fun x => x.virtual_token_reserves),
            real_sol_reserves := tradeOpt.map (fun x => x.real_sol_reserves),
            real_token_reserves := tradeOpt.map (fun x => x.real_token_reserves),
            user_token_pre_balance := src.pre_balance }))) := by
  constructor
  · intro b si st ti tr dst hdec hsys hst htok htr hdst
    rw [Pumpfun.parse_instruction, if_neg (by simp [hpid]), hdec]
    simp only [buy_result_eq env ctx i b si ti st tr dst tradeOpt hlen hsys hst
      htok htr hdst htrade, RResult.map_ok]
  · intro s ti tr src hdec htok htr hsrc
    rw [Pumpfun.parse_instruction, if_neg (by simp [hpid]), hdec]
    simp only [sell_result_eq env ctx i s ti tr src tradeOpt hlen htok htr hsrc
      htrade, RResult.map_ok]

def c5buyiW : Instruction :=
  .mk PUMPFUN_PROGRAM_ID accs7 [102] [sysChildW, tokChildW]
    (some [Log.dataLog (some [1])])

def c5selliW : Instruction :=
  .mk PUMPFUN_PROGRAM_ID accs7 [103] [tokChildW] none

def trW : SplToken.TransferEvent :=
  { source := some taSrc, destination := some taDst, amount := 5,
    authority := "authW" }

/-- Witness for C5: a concrete buy with a present trade log populates the
    reserve fields; a concrete sell with truncated logs leaves them unset
    while the transfer-derived fields are populated. -/
theorem c5_witness :
    Pumpfun.parse_pumpfun_log envW c5buyiW = .ok (.Trade tradeW) ∧
    Pumpfun.parse_instruction envW c5buyiW ctxW =
      .ok (some (.Swap
        { user := "userP", mint := "mintP", bonding_curve := "curveP",
          sol_amount := some 1000, token_amount := 42,
          direction := "token",
          virtual_sol_reserves := some 6, virtual_token_reserves := some 7,
          real_sol_reserves := some 8, real_token_reserves := some 9,
          user_token_pre_balance := 23 })) ∧
    Pumpfun.parse_pumpfun_log envW c5selliW = .err Pumpfun.logTruncMsg ∧
    Pumpfun.parse_instruction envW c5selliW ctxW =
      .ok (some (.Swap
        { user := "userP", mint := "mintP", bonding_curve := "curveP",
          sol_amount := none, token_amount := 17,
          direction := "sol",
          virtual_sol_reserves := none, virtual_token_reserves := none,
          real_sol_reserves := none, real_token_reserves := none,
          user_token_pre_balance := 11 })) := by
  refine ⟨rfl, ?_, rfl, ?_⟩
  · exact (c5_reserve_fields envW ctxW c5buyiW (tradeOf envW c5buyiW) rfl
      (by simp [c5buyiW, accs7, Instruction.accounts])
      (fun t => tradeOf_spec envW c5buyiW t)).1
      { amount := 42 } sysChildW { lamports := 1000 } tokChildW trW taDst
      rfl rfl rfl rfl rfl rfl
  · exact (c5_reserve_fields envW ctxW c5selliW (tradeOf envW c5selliW) rfl
      (by simp [c5selliW, accs7, Instruction.accounts])
      (fun t => tradeOf_spec envW c5selliW t)).2
      { amount := 17 } tokChildW trW taSrc rfl rfl rfl rfl

/-- Claim C10: a well-formed buy instruction's `SwapEvent` has direction
    fixed to "token" and user_token_pre_balance equal to the pre-transfer
    balance of the correlated token-transfer child's destination
    snapshot; a well-formed sell instruction's `SwapEvent` has direction
    fixed to "sol" and user_token_pre_balance from the child's source
    snapshot. -/
theorem c10_direction_and_pre_balance (env : Env) (ctx : TransactionContext)
    (i : Instruction)
    (hpid : i.program_id = PUMPFUN_PROGRAM_ID)
    (hlen : 7 ≤ i.accounts.length) :
    (∀ b si st ti tr dst,
      env.pfUnpack i.data = .ok (.Buy b) →
      i.inner_instructions.find?
        (fun x => x.program_id == SYSTEM_PROGRAM_ID) = some si →
      env.sysParseTransfer si ctx = .ok st →
      i.inner_instructions.find?
        (fun x => x.program_id == TOKEN_PROGRAM_ID) = some ti →
      SplToken.parse_transfer_instruction env ti ctx = .ok tr →
      tr.destination = some dst →
      ∃ ev : Pumpfun.SwapEvent,
        Pumpfun.parse_instruction env i ctx = .ok (some (.Swap ev)) ∧
        ev.direction = "token" ∧
        ev.user_token_pre_balance = dst.pre_balance) ∧
    (∀ s ti tr src,
      env.pfUnpack i.data = .ok (.Sell s) →
      i.inner_instructions.find?
        (fun x => x.program_id == TOKEN_PROGRAM_ID) = some ti →
      SplToken.parse_transfer_instruction env ti ctx = .ok tr →
      tr.source = some src →
      ∃ ev : Pumpfun.SwapEvent,
        Pumpfun.parse_instruction env i ctx = .ok (some (.Swap ev)) ∧
        ev.direction = "sol" ∧
        ev.user_token_pre_balance = src.pre_balance) := by
  constructor
  · intro b si st ti tr dst hdec hsys hst htok htr hdst
    refine ⟨{ user := i.accounts.getD 6 "", mint := i.accounts.getD 2 "",
              bonding_curve := i.accounts.getD 3 "",
              sol_amount := some st.lamports, token_amount := b.amount,
              direction := Pumpfun.directionToken,
              virtual_sol_reserves :=
                (tradeOf env i).map (fun x => x.virtual_sol_reserves),
              virtual_token_reserves :=
                (tradeOf env i).map (fun x => x.virtual_token_reserves),
              real_sol_reserves :=
                (tradeOf env i).map (fun x => x.real_sol_reserves),
              real_token_reserves :=
                (tradeOf env i).map (fun x => x.real_token_reserves),
              user_token_pre_balance := dst.pre_balance }, ?_, rfl, rfl⟩
    rw [Pumpfun.parse_instruction, if_neg (by simp [hpid]), hdec]
    simp only [buy_result_eq env ctx i b si ti st tr dst (tradeOf env i) hlen
      hsys hst htok htr hdst (fun t => tradeOf_spec env i t), RResult.map_ok]
  · intro s ti tr src hdec htok htr hsrc
    refine ⟨{ user := i.accounts.getD 6 "", mint := i.accounts.getD 2 "",
              bonding_curve := i.accounts.getD 3 "",
              sol_amount := (tradeOf env i).map (fun x => x.sol_amount),
              token_amount := s.amount,
              direction := Pumpfun.directionSol,
              virtual_sol_reserves :=
                (tradeOf env i).map (fun x => x.virtual_sol_reserves),
              virtual_token_reserves :=
                (tradeOf env i).map (fun x => x.virtual_token_reserves),
              real_sol_reserves :=
                (tradeOf env i).map (fun x => x.real_sol_reserves),
              real_token_reserves :=
                (tradeOf env i).map (fun x => x.real_token_reserves),
              user_token_pre_balance := src.pre_balance }, ?_, rfl, rfl⟩
    rw [Pumpfun.parse_instruction, if_neg (by simp [hpid]), hdec]
    simp only [sell_result_eq env ctx i s ti tr src (tradeOf env i) hlen htok
      htr hsrc (fun t => tradeOf_spec env i t), RResult.map_ok]

/-- Witness for C10 at the concrete buy and sell instructions. -/
theorem c10_witness :
    (∃ ev : Pumpfun.SwapEvent,
      Pumpfun.parse_instruction envW c5buyiW ctxW = .ok (some (.Swap ev)) ∧
      ev.direction = "token" ∧
      ev.user_token_pre_balance = taDst.pre_balance) ∧
    (∃ ev : Pumpfun.SwapEvent,
      Pumpfun.parse_instruction envW c5selliW ctxW = .ok (some (.Swap ev)) ∧
      ev.direction = "sol" ∧
      ev.user_token_pre_balance = taSrc.pre_balance) := by
  constructor
  · exact (c10_direction_and_pre_balance envW ctxW c5buyiW rfl
      (by simp [c5buyiW, accs7, Instruction.accounts])).1
      { amount := 42 } sysChildW { lamports := 1000 } tokChildW trW taDst
      rfl rfl rfl rfl rfl rfl
  · exact (c10_direction_and_pre_balance envW ctxW c5selliW rfl
      (by simp [c5selliW, accs7, Instruction.accounts])).2
      { amount := 17 } tokChildW trW taSrc rfl rfl rfl rfl

/-- Refinement target for the orchestrator call trace, written from the
    specification's words: `update_balance` is invoked once per
    instruction of the flattened sequence, in execution order, before
    that instruction is decoded (the decode being present exactly for
    instructions of the target program). -/
def specCallTrace (target : String) : List Instruction → List CallEvent
  | [] => []
  | i :: rest =>
    .updBal i :: ((if i.program_id = target then [CallEvent.decode i] else [])
      ++ specCallTrace target rest)

theorem RResult.map_eq_ok_inv {α β : Type} {f : α → β} {r : RResult α}
    {b : β} (h : RResult.map f r = .ok b) : ∃ a, r = .ok a := by
  cases r with
  | ok a => exact ⟨a, rfl⟩
  | err e => simp [RResult.map] at h
  | crash => simp [RResult.map] at h

/-- On an error-free run, the token-standard loop's call trace is exactly
    the specification's trace. -/
theorem spl_loop_trace (env : Env) :
    ∀ (l : List Instruction) (ctx : TransactionContext)
      (evs : List SplToken.SplTokenEvent),
      (SplToken.spl_loop env ctx l).1 = .ok evs →
      (SplToken.spl_loop env ctx l).2 = specCallTrace TOKEN_PROGRAM_ID l := by
  intro l
  induction l with
  | nil => intro ctx evs h; rfl
  | cons i rest ih =>
    intro ctx evs h
    rw [SplToken.spl_loop] at h ⊢
    rw [specCallTrace]
    by_cases hp : i.program_id = TOKEN_PROGRAM_ID
    · rw [if_pos hp] at h ⊢
      rw [if_pos hp]
      cases hpi : SplToken.parse_instruction env i (env.updateBalance ctx i) with
      | ok ev =>
        rw [hpi] at h
        dsimp only at h ⊢
        obtain ⟨evs0, h0⟩ := RResult.map_eq_ok_inv h
        rw [ih (env.updateBalance ctx i) evs0 h0]
        simp
      | err e => rw [hpi] at h; simp at h
      | crash => rw [hpi] at h; simp at h
    · rw [if_neg hp] at h ⊢
      rw [if_neg hp]
      dsimp only at h ⊢
      rw [ih (env.updateBalance ctx i) evs h]
      simp

/-- The curve-program loop never calls `update_balance`. -/
theorem pumpfun_loop_no_updates (env : Env) (ctx : TransactionContext)
    (l : List Instruction) :
    ((Pumpfun.pumpfun_loop env ctx l).2).countP CallEvent.isUpd = 0 := by
  induction l with
  | nil => rfl
  | cons i rest ih =>
    rw [Pumpfun.pumpfun_loop]
    by_cases h : i.program_id ≠ PUMPFUN_PROGRAM_ID
    · rw [if_pos h]; exact ih
    · rw [if_neg h]
      cases hp : Pumpfun.parse_instruction env i ctx with
      | ok o =>
        cases o with
        | some ev => simpa [List.countP_cons, CallEvent.isUpd] using ih
        | none => simpa [List.countP_cons, CallEvent.isUpd] using ih
      | err e => simp [List.countP_cons, CallEvent.isUpd]
      | crash => simp [List.countP_cons, CallEvent.isUpd]

/-- For every run, aborting or not, the token-standard loop's call trace
    is the specification trace over the prefix of the instruction list it
    processed; the prefix is the whole list whenever the run succeeds. -/
theorem spl_loop_trace_total (env : Env) :
    ∀ (l : List Instruction) (ctx : TransactionContext),
      ∃ l1 l2, l = l1 ++ l2 ∧
        (SplToken.spl_loop env ctx l).2 = specCallTrace TOKEN_PROGRAM_ID l1 ∧
        (∀ evs, (SplToken.spl_loop env ctx l).1 = RResult.ok evs →
          l2 = []) := by
  intro l
  induction l with
  | nil =>
    intro ctx
    exact ⟨[], [], rfl, rfl, fun _ _ => rfl⟩
  | cons i rest ih =>
    intro ctx
    obtain ⟨l1, l2, hsplit, htr, hok⟩ := ih (env.updateBalance ctx i)
    by_cases hp : i.program_id = TOKEN_PROGRAM_ID
    · cases hpi : SplToken.parse_instruction env i (env.updateBalance ctx i) with
      | ok ev =>
        refine ⟨i :: l1, l2, by rw [List.cons_append, ← hsplit], ?_, ?_⟩
        · rw [SplToken.spl_loop, if_pos hp, hpi]
          dsimp only
          rw [htr, specCallTrace, if_pos hp]
          simp
        · intro evs h
          rw [SplToken.spl_loop, if_pos hp, hpi] at h
          dsimp only at h
          obtain ⟨evs0, h0⟩ := RResult.map_eq_ok_inv h
          exact hok evs0 h0
      | err e =>
        refine ⟨[i], rest, rfl, ?_, ?_⟩
        · rw [SplToken.spl_loop, if_pos hp, hpi]
          dsimp only
          rw [specCallTrace, if_pos hp]
          rfl
        · intro evs h
          rw [SplToken.spl_loop, if_pos hp, hpi] at h
          simp at h
      | crash =>
        refine ⟨[i], rest, rfl, ?_, ?_⟩
        · rw [SplToken.spl_loop, if_pos hp, hpi]
          dsimp only
          rw [specCallTrace, if_pos hp]
          rfl
        · intro evs h
          rw [SplToken.spl_loop, if_pos hp, hpi] at h
          simp at h
    · refine ⟨i :: l1, l2, by rw [List.cons_append, ← hsplit], ?_, ?_⟩
      · rw [SplToken.spl_loop, if_neg hp]
        dsimp only
        rw [htr, specCallTrace, if_neg hp]
        simp
      · intro evs h
        rw [SplToken.spl_loop, if_neg hp] at h
        dsimp only at h
        exact hok evs h

/-- Claim C4 (amended): on every non-failed transaction the
    token-standard orchestrator's call trace is the specification trace —
    `update_balance` once per instruction, in execution order, before
    that instruction's decode — over the prefix of the flattened sequence
    it processes, and that prefix is the entire sequence whenever
    processing completes without error; the curve-program orchestrator
    never calls `update_balance` at all. -/
theorem c4_update_balance_amended (env : Env) (ctx : TransactionContext)
    (tx : Transaction) :
    (tx.failed = false →
      ∃ l1 l2, flattenList tx.instructions = l1 ++ l2 ∧
        (SplToken.parse_transaction env ctx tx).2 =
          specCallTrace TOKEN_PROGRAM_ID l1 ∧
        (∀ evs, (SplToken.parse_transaction env ctx tx).1 = RResult.ok evs →
          l2 = [])) ∧
    ((Pumpfun.parse_transaction env ctx tx).2).countP CallEvent.isUpd = 0 := by
  constructor
  · intro hf
    rw [SplToken.parse_transaction, if_neg (by simp [hf])]
    exact spl_loop_trace_total env (flattenList tx.instructions) ctx
  · rw [Pumpfun.parse_transaction]
    by_cases hf : tx.failed
    · simp [hf]
    · rw [if_neg hf]
      exact pumpfun_loop_no_updates env ctx (flattenList tx.instructions)

def c4iW : Instruction := .mk PUMPFUN_PROGRAM_ID accs7 [4] [] none

def c4txW : Transaction :=
  { signature := "SIGW", failed := false, instructions := [c4iW] }

/-- Counterexample to C4 as stated: a concrete non-failed transaction
    processed successfully by the curve-program orchestrator (producing a
    withdraw event), whose flattened sequence has one instruction, yet
    `update_balance` is invoked zero times — not once per instruction
    before decoding. -/
theorem c4_counterexample :
    (flattenList c4txW.instructions).length = 1 ∧
    (Pumpfun.parse_transaction envW ctxW c4txW).1 =
      .ok [{ event := some (.Withdraw { mint := "mintP" }) }] ∧
    ((Pumpfun.parse_transaction envW ctxW c4txW).2).countP CallEvent.isUpd
      = 0 := by
  refine ⟨rfl, rfl, rfl⟩

def otherIW : Instruction := .mk ("otherProg") [] [] [] none

def c4stxW : Transaction :=
  { signature := "SIGW", failed := false, instructions := [otherIW, c6iW] }

def c4atxW : Transaction :=
  { signature := "SIGW", failed := false, instructions := [c8iW, c6iW] }

/-- Witness for the amended C4: a concrete error-free token-standard
    transaction (foreign-program instruction then a transfer) whose full
    trace equals the specification trace; a concrete aborting transaction
    (panicking transfer then a transfer never reached) whose trace is the
    specification trace of the processed prefix; and the concrete curve
    transaction with zero `update_balance` calls. -/
theorem c4_witness :
    c4stxW.failed = false ∧
    (SplToken.parse_transaction envW ctxW c4stxW).1 =
      .ok [{ event := some (.Transfer trW) }] ∧
    (SplToken.parse_transaction envW ctxW c4stxW).2 =
      specCallTrace TOKEN_PROGRAM_ID (flattenList c4stxW.instructions) ∧
    (∃ l1 l2, flattenList c4stxW.instructions = l1 ++ l2 ∧
      (SplToken.parse_transaction envW ctxW c4stxW).2 =
        specCallTrace TOKEN_PROGRAM_ID l1 ∧
      (∀ evs, (SplToken.parse_transaction envW ctxW c4stxW).1 =
        RResult.ok evs → l2 = [])) ∧
    c4atxW.failed = false ∧
    (SplToken.parse_transaction envW ctxW c4atxW).1 = .crash ∧
    (SplToken.parse_transaction envW ctxW c4atxW).2 =
      specCallTrace TOKEN_PROGRAM_ID [c8iW] ∧
    (∃ l1 l2, flattenList c4atxW.instructions = l1 ++ l2 ∧
      (SplToken.parse_transaction envW ctxW c4atxW).2 =
        specCallTrace TOKEN_PROGRAM_ID l1 ∧
      (∀ evs, (SplToken.parse_transaction envW ctxW c4atxW).1 =
        RResult.ok evs → l2 = [])) ∧
    ((Pumpfun.parse_transaction envW ctxW c4txW).2).countP CallEvent.isUpd
      = 0 := by
  refine ⟨rfl, rfl, rfl,
    (c4_update_balance_amended envW ctxW c4stxW).1 rfl,
    rfl, rfl, rfl,
    (c4_update_balance_amended envW ctxW c4atxW).1 rfl,
    (c4_update_balance_amended envW ctxW c4txW).2⟩

/-- Dropping an instruction that synthesizes to no event from anywhere in
    the curve-program loop leaves the resulting event list unchanged. -/
theorem pumpfun_loop_drop_none (env : Env) (ctx : TransactionContext)
    (i : Instruction)
    (hpid : i.program_id = PUMPFUN_PROGRAM_ID)
    (hnone : Pumpfun.parse_instruction env i ctx = .ok none) :
    ∀ l1 l2 : List Instruction,
      (Pumpfun.pumpfun_loop env ctx (l1 ++ i :: l2)).1 =
        (Pumpfun.pumpfun_loop env ctx (l1 ++ l2)).1 := by
  intro l1 l2
  induction l1 with
  | nil =>
    simp only [List.nil_append]
    rw [Pumpfun.pumpfun_loop, if_neg (by simp [hpid]), hnone]
  | cons j l1 ih =>
    simp only [List.cons_append]
    rw [Pumpfun.pumpfun_loop]
    conv_rhs => rw [Pumpfun.pumpfun_loop]
    by_cases hj : j.program_id ≠ PUMPFUN_PROGRAM_ID
    · rw [if_pos hj, if_pos hj]
      exact ih
    · rw [if_neg hj, if_neg hj]
      cases hp : Pumpfun.parse_instruction env j ctx with
      | ok o =>
        cases o with
        | some ev => dsimp only; rw [ih]
        | none => exact ih
      | err e => rfl
      | crash => rfl

/-- Claim C7 (amended): an unsupported curve-program instruction variant
    yields no event and no error, and the per-transaction event list is
    exactly as if the instruction were absent; a token-standard
    amount/UI-amount conversion or account-size query also yields no
    inner event and no error, but the orchestrator appends a wrapper
    entry with an empty event to the per-transaction list (so the list is
    not as if the instruction were absent). -/
theorem c7_unsupported_amended (env : Env) :
    (∀ (ctx : TransactionContext) (i : Instruction)
       (l1 l2 : List Instruction),
      i.program_id = PUMPFUN_PROGRAM_ID →
      env.pfUnpack i.data = .ok .Unsupported →
      Pumpfun.parse_instruction env i ctx = .ok none ∧
      (Pumpfun.pumpfun_loop env ctx (l1 ++ i :: l2)).1 =
        (Pumpfun.pumpfun_loop env ctx (l1 ++ l2)).1) ∧
    (∀ (ctx : TransactionContext) (i : Instruction)
       (rest : List Instruction),
      i.program_id = TOKEN_PROGRAM_ID →
      (env.tokUnpack i.data = .ok .GetAccountDataSize ∨
       (∃ a, env.tokUnpack i.data = .ok (.AmountToUiAmount a)) ∨
       (∃ a, env.tokUnpack i.data = .ok (.UiAmountToAmount a))) →
      SplToken.parse_instruction env i (env.updateBalance ctx i) = .ok none ∧
      (SplToken.spl_loop env ctx (i :: rest)).1 =
        ((SplToken.spl_loop env (env.updateBalance ctx i) rest).1).map
          (fun evs => { event := none } :: evs)) := by
  constructor
  · intro ctx i l1 l2 hpid hdec
    have hnone : Pumpfun.parse_instruction env i ctx = .ok none := by
      rw [Pumpfun.parse_instruction, if_neg (by simp [hpid]), hdec]
    exact ⟨hnone, pumpfun_loop_drop_none env ctx i hpid hnone l1 l2⟩
  · intro ctx i rest hpid hq
    have hnone : ∀ c : TransactionContext,
        SplToken.parse_instruction env i c = .ok none := by
      intro c
      rcases hq with h | ⟨a, h⟩ | ⟨a, h⟩ <;>
        rw [SplToken.parse_instruction, if_neg (by simp [hpid]), h] <;> rfl
    refine ⟨hnone _, ?_⟩
    rw [SplToken.spl_loop, if_pos hpid, hnone (env.updateBalance ctx i)]

def c7iW : Instruction := .mk TOKEN_PROGRAM_ID [] [21] [] none

def c7txW : Transaction :=
  { signature := "SIGW", failed := false, instructions := [c7iW] }

def c7tx0W : Transaction :=
  { signature := "SIGW", failed := false, instructions := [] }

/-- Counterexample to C7 as stated: a concrete token-standard
    account-size query yields no error and no inner event, yet the
    per-transaction event list is not as if the instruction were absent:
    the orchestrator appends a wrapper entry with an empty event. -/
theorem c7_counterexample :
    SplToken.parse_instruction envW c7iW ctxW = .ok none ∧
    (SplToken.parse_transaction envW ctxW c7txW).1 =
      .ok [{ event := none }] ∧
    (SplToken.parse_transaction envW ctxW c7tx0W).1 = .ok [] ∧
    (SplToken.parse_transaction envW ctxW c7txW).1 ≠
      (SplToken.parse_transaction envW ctxW c7tx0W).1 := by
  refine ⟨rfl, rfl, rfl, by decide⟩

def c7pW : Instruction := .mk PUMPFUN_PROGRAM_ID [] [9] [] none

/-- Witness for the amended C7 at a concrete unsupported curve
    instruction and the concrete account-size query. -/
theorem c7_witness :
    c7pW.program_id = PUMPFUN_PROGRAM_ID ∧
    envW.pfUnpack c7pW.data = .ok .Unsupported ∧
    (Pumpfun.parse_instruction envW c7pW ctxW = .ok none ∧
     (Pumpfun.pumpfun_loop envW ctxW ([c4iW] ++ c7pW :: [])).1 =
       (Pumpfun.pumpfun_loop envW ctxW ([c4iW] ++ [])).1) ∧
    c7iW.program_id = TOKEN_PROGRAM_ID ∧
    envW.tokUnpack c7iW.data = .ok .GetAccountDataSize ∧
    (SplToken.parse_instruction envW c7iW
        (envW.updateBalance ctxW c7iW) = .ok none ∧
     (SplToken.spl_loop envW ctxW (c7iW :: [])).1 =
       ((SplToken.spl_loop envW
          (envW.updateBalance ctxW c7iW) []).1).map
         (fun evs => { event := none } :: evs)) := by
  refine ⟨rfl, rfl, ?_, rfl, rfl, ?_⟩
  · exact (c7_unsupported_amended envW).1 ctxW c7pW [c4iW] [] rfl rfl
  · exact (c7_unsupported_amended envW).2 ctxW c7iW [] rfl (Or.inl rfl)
